import Mathlib

/-
Shallow embedding of the substrate_indexer service of this repository
(src/substrate_indexer and the rotkehlchen typing modules it uses), together
with theorems settling the frozen claims about its specification.
-/

namespace SubstrateIndexer

/-- Supported Substrate chains, from rotkehlchen.chain.substrate.typing.SubstrateChain. -/
inductive SubstrateChain where
  | KUSAMA
deriving DecidableEq, Repr

/-- String form of the chain, from SubstrateChain.__str__. -/
def SubstrateChain.chainId : SubstrateChain → String
  | .KUSAMA => "Kusama"

/-- SubstrateChain.get_substrate_chain_from_chain_id: accepts the integer 1 (or the
string form, which the JSON payloads of the control plane never carry) for Kusama and
raises AssertionError for any other chain id. The AssertionError outcome is the
error branch here. -/
def get_substrate_chain_from_chain_id (chain_id : Int) : Except String SubstrateChain :=
  if chain_id = 1 then .ok SubstrateChain.KUSAMA
  else .error "Unexpected chain ID"

/-- Fields of a scalecodec Extrinsic that the indexer and the db writer read:
the hash (None for inherents), the contains_transaction flag, the signer account id
(extrinsic.address.account_id), the nested value.params[0].value of the timestamp
inherent when present, and the call data carried through to the DB row. -/
structure Extrinsic where
  extrinsic_hash : Option String
  contains_transaction : Bool
  account_id : String
  inherent_value : Option String
  call_module : String
  call_function : String
  params : String
  nonce : Int
deriving DecidableEq, Repr

/-- Payload data of a start_indexing event, from
substrate_indexer.typing_events.EventStartIndexingData (address_public_key is
derived in __post_init__ and stored on the instance). -/
structure EventStartIndexingData where
  substrate_chain : SubstrateChain
  block_number_start_at : Nat
  address : String
  address_public_key : String
deriving DecidableEq, Repr

/-- Payload data of a start_indexer event, from
substrate_indexer.typing_events.EventStartIndexerData. -/
structure EventStartIndexerData where
  substrate_chain : SubstrateChain
  url : String
deriving DecidableEq, Repr

/-- rotkehlchen.chain.substrate.typing.SubstrateAddressBlockExtrinsicsData, the
queue item produced by an Indexer and consumed by a DBWriter. -/
structure SubstrateAddressBlockExtrinsicsData where
  address : String
  address_public_key : String
  block_number : Nat
  block_hash : String
  block_timestamp : Nat
  extrinsics : List Extrinsic
deriving DecidableEq, Repr

/-- Millisecond stripping done by deserialize_timestamp_from_date when
skip_milliseconds is set: date.split with a dot keeping the first part, which is
the prefix of the string before its first dot (the whole string when no dot
occurs). -/
def skipMilliseconds (date : String) : String :=
  String.mk (date.data.takeWhile (fun c => c ≠ '.'))

/-- rotkehlchen.serialization.deserialize.deserialize_timestamp_from_date for a
plain format string: empty dates fail, milliseconds are stripped, then the date is
parsed with the format. The strptime call of create_timestamp is external C code,
so the format parse is a parameter parseDate; a parse failure (ValueError) becomes
a DeserializationError. -/
def deserialize_timestamp_from_date (parseDate : String → Option Nat) (date : String) :
    Except String Nat :=
  if date = "" then .error "Failed to deserialize a timestamp from a null entry"
  else
    match parseDate (skipMilliseconds date) with
    | some ts => .ok ts
    | none => .error "Failed to deserialize timestamp entry"

/-- substrate_indexer.deserializations.deserialize_inherent_timestamp: reads
value.params[0].value (a KeyError becomes a DeserializationError) and parses it
with BLOCK_INHERENT_DATETIME_FORMAT, skipping milliseconds. -/
def deserialize_inherent_timestamp (parseDate : String → Option Nat)
    (value : Option String) : Except String Nat :=
  match value with
  | none => .error "Missing key in value"
  | some d => deserialize_timestamp_from_date parseDate d

/-- REQUEST_BLOCK_RETRY_TIMES from substrate_indexer.indexer. -/
def REQUEST_BLOCK_RETRY_TIMES : Nat := 2

/-- Outcome of one node_interface.get_block_extrinsics attempt: either the list of
extrinsics of the block or one of the caught transient exceptions. -/
abbrev FetchResult := Except String (List Extrinsic)

/-- Retry loop of Indexer._get_address_block_extrinsics_data: while retries_left is
non-negative, attempt the request; on a caught exception decrement retries_left and
continue when retries remain, otherwise raise RemoteError; break on success.
attempts gives the outcome of the i-th attempt. -/
def requestBlockExtrinsics (attempts : Nat → FetchResult) : Nat → Nat → FetchResult
  | i, retries_left =>
    match attempts i with
    | .ok xs => .ok xs
    | .error e =>
      match retries_left with
      | r + 1 => requestBlockExtrinsics attempts (i + 1) r
      | 0 => .error e

/-- Filter loop of Indexer._get_address_block_extrinsics_data: an extrinsic is kept
unless its hash is None or contains_transaction is False. The comparison of the
signer account id against the indexer target public key is commented out in the
source (a restore TODO), so no signer check is applied. -/
def addressBlockExtrinsicsFilter (block_extrinsics : List Extrinsic) : List Extrinsic :=
  block_extrinsics.filter fun e =>
    !(e.extrinsic_hash.isNone || e.contains_transaction == false)

/-- Typed failure of one iteration of the Indexer main loop. -/
inductive IndexerFailure where
  | remoteError (msg : String)
  | deserializationError (msg : String)
deriving DecidableEq, Repr

/-- Per-block environment seen by the indexer: the outcomes of the successive
get_block_extrinsics attempts and the block hash the node interface stores as a
side effect of a successful request. -/
structure BlockEnv where
  attempts : Nat → FetchResult
  block_hash : String

/-- Indexer._get_address_block_extrinsics_data: request the block extrinsics with
retries, keep the filtered extrinsics, return None when none remain, otherwise
parse the timestamp of the first extrinsic of the block (the inherent) and build
the queue item. The head? match is total; its none branch cannot be reached
because a nonempty filtered list forces a nonempty block. -/
def get_address_block_extrinsics_data (parseDate : String → Option Nat)
    (d : EventStartIndexingData) (env : BlockEnv) (block_number : Nat) :
    Except IndexerFailure (Option SubstrateAddressBlockExtrinsicsData) :=
  match requestBlockExtrinsics env.attempts 0 REQUEST_BLOCK_RETRY_TIMES with
  | .error e => .error (.remoteError e)
  | .ok block_extrinsics =>
    if (addressBlockExtrinsicsFilter block_extrinsics).isEmpty then .ok none
    else
      match block_extrinsics.head? with
      | none => .ok none
      | some block_inherent =>
        match deserialize_inherent_timestamp parseDate block_inherent.inherent_value with
        | .error msg => .error (.deserializationError msg)
        | .ok block_timestamp =>
          .ok (some {
            address := d.address
            address_public_key := d.address_public_key
            block_number := block_number
            block_hash := env.block_hash
            block_timestamp := block_timestamp
            extrinsics := addressBlockExtrinsicsFilter block_extrinsics })

/-- Message emitted to the client session over the socket. -/
inductive EmittedMsg where
  | serverError (code : String) (detail : String)
  | serverSuccess (event : String)
deriving DecidableEq, Repr

/-- Error code string of IndexerError.E0001. -/
def indexerE0001 : String := "get_address_block_extrinsics_data_0001"

/-- Indexer.start main loop, run for fuel iterations over a per-block environment:
each iteration fetches and filters one block; a DeserializationError or RemoteError
emits one server_error to the owning session and exits; a None result advances the
cursor; a produced item is put on the queue and the cursor advances. Returns the
queue puts in order and the emitted messages. -/
def indexerRun (parseDate : String → Option Nat) (d : EventStartIndexingData)
    (env : Nat → BlockEnv) :
    Nat → Nat → List SubstrateAddressBlockExtrinsicsData × List EmittedMsg
  | 0, _ => ([], [])
  | fuel + 1, block_number =>
    match get_address_block_extrinsics_data parseDate d (env block_number) block_number with
    | .error (.remoteError msg) => ([], [.serverError indexerE0001 msg])
    | .error (.deserializationError msg) => ([], [.serverError indexerE0001 msg])
    | .ok none => indexerRun parseDate d env fuel (block_number + 1)
    | .ok (some item) =>
      let rest := indexerRun parseDate d env fuel (block_number + 1)
      (item :: rest.1, rest.2)

/-- Indexer.start begins the loop at block_number_start_at. -/
def indexerStart (parseDate : String → Option Nat) (d : EventStartIndexingData)
    (env : Nat → BlockEnv) (fuel : Nat) :
    List SubstrateAddressBlockExtrinsicsData × List EmittedMsg :=
  indexerRun parseDate d env fuel d.block_number_start_at

/-- Constants of substrate_indexer.dbwriter. -/
def REQUEST_RECEIPT_DATA_TIMES : Nat := 2

/-- MIN_NUMBER_QUEUE_ITEMS_BEFORE_PROCESS from substrate_indexer.dbwriter. -/
def MIN_NUMBER_QUEUE_ITEMS_BEFORE_PROCESS : Nat := 10

/-- MAX_NUMBER_QUEUE_ITEMS_TO_PROCESS from substrate_indexer.dbwriter. -/
def MAX_NUMBER_QUEUE_ITEMS_TO_PROCESS : Nat := 10

/-- Receipt data read from substrateinterface.ExtrinsicReceipt: the in-block
extrinsic index and the total fee amount in minor units, which the library may
report as None. -/
structure ReceiptData where
  extrinsic_index : Nat
  total_fee_amount : Option Nat
deriving DecidableEq, Repr

/-- Outcome of one receipt lookup attempt (extrinsic_idx plus total_fee_amount):
either the data or one of the caught transient exceptions. -/
abbrev ReceiptAttempt := Except String ReceiptData

/-- Receipt lookup loop of DBWriter._deserialize_substrate_extrinsics. In the
source the loop reads: while retries_left is non-negative, attempt the lookup; in
the except branch retries_left is decremented when positive, but no continue
follows the decrement, so control always falls through to raise RemoteError; break
on success. The first attempt therefore decides the outcome and the decrement is
dead. -/
def requestReceiptData (attempts : Nat → ReceiptAttempt) : ReceiptAttempt :=
  match attempts 0 with
  | .ok r => .ok r
  | .error _ => .error "failed to request extrinsic data"

/-- Modelled from the spec: the receipt lookup is retried up to
REQUEST_RECEIPT_DATA_TIMES additional times on transient errors, surfacing an
error only after all retries are exhausted. This definition follows the words of
the spec (and the retry shape the indexer uses for blocks) for comparison with
requestReceiptData, which embeds the source. -/
def requestReceiptDataRetrying (attempts : Nat → ReceiptAttempt) :
    Nat → Nat → ReceiptAttempt
  | i, retries_left =>
    match attempts i with
    | .ok r => .ok r
    | .error e =>
      match retries_left with
      | n + 1 => requestReceiptDataRetrying attempts (i + 1) n
      | 0 => .error e

/-- Cached node interface attributes the DBWriter reads: the chain name and the
token decimals obtained at connect time. -/
structure NodeInterfaceData where
  chain : String
  token_decimals : Nat
deriving DecidableEq, Repr

/-- Modelled from the spec: FVal (rotkehlchen.fval, not under src) is exact
arbitrary precision decimal arithmetic, so the fee conversion of the DBWriter,
total_fee_amount divided by 10 to the token_decimals power, is exact division with
no floating point rounding. Embedded over the rationals. -/
def convertFee (total_fee_amount : Nat) (token_decimals : Nat) : ℚ :=
  (total_fee_amount : ℚ) / (10 : ℚ) ^ token_decimals

/-- rotkehlchen.chain.substrate.typing.SubstrateExtrinsic, the row persisted by
the DBWriter (params carried as its canonical JSON serialization). -/
structure SubstrateExtrinsic where
  chain_id : String
  block_number : Nat
  block_hash : String
  block_timestamp : Nat
  extrinsic_index : Nat
  extrinsic_hash : String
  call_module : String
  call_module_function : String
  params : String
  account_id : String
  address : String
  nonce : Int
  fee : ℚ
deriving DecidableEq, Repr

/-- Body of the per-extrinsic work in DBWriter._deserialize_substrate_extrinsics:
look up the receipt (raising RemoteError on a failed lookup), require a present
total_fee_amount (raising RemoteError when it is None), convert the fee and build
the SubstrateExtrinsic. receipts gives the lookup attempt outcomes for each
extrinsic. The extrinsic hash of a queue item is never None because the indexer
filter keeps only hashed extrinsics, so the None fallback is unreachable. -/
def deserializeOneExtrinsic (node : NodeInterfaceData)
    (receipts : Extrinsic → Nat → ReceiptAttempt)
    (abed : SubstrateAddressBlockExtrinsicsData) (e : Extrinsic) :
    Except String SubstrateExtrinsic :=
  match requestReceiptData (receipts e) with
  | .error msg => .error msg
  | .ok r =>
    match r.total_fee_amount with
    | none => .error "failed to calculate fee amount"
    | some total_fee_amount =>
      .ok {
        chain_id := node.chain
        block_timestamp := abed.block_timestamp
        block_number := abed.block_number
        block_hash := abed.block_hash
        extrinsic_index := r.extrinsic_index
        extrinsic_hash := e.extrinsic_hash.getD ""
        call_module := e.call_module
        call_module_function := e.call_function
        params := e.params
        account_id := abed.address_public_key
        address := abed.address
        nonce := e.nonce
        fee := convertFee total_fee_amount node.token_decimals }

/-- DBWriter._deserialize_substrate_extrinsics: process every extrinsic of a queue
item in order, propagating the first RemoteError. -/
def deserialize_substrate_extrinsics (node : NodeInterfaceData)
    (receipts : Extrinsic → Nat → ReceiptAttempt)
    (abed : SubstrateAddressBlockExtrinsicsData) :
    Except String (List SubstrateExtrinsic) :=
  abed.extrinsics.mapM (deserializeOneExtrinsic node receipts abed)

/-- Result of one pass of the DBWriter main loop: the pass either slept because
the queue held fewer than the minimum number of items, or committed a batch, or
surfaced an error; each case carries the resulting queue and DB contents. -/
inductive PassResult where
  | slept (queue : List SubstrateAddressBlockExtrinsicsData) (db : List SubstrateExtrinsic)
  | committed (queue : List SubstrateAddressBlockExtrinsicsData) (db : List SubstrateExtrinsic)
  | failed (queue : List SubstrateAddressBlockExtrinsicsData) (db : List SubstrateExtrinsic)
      (msg : String)
deriving DecidableEq, Repr

/-- Batch drain loop of DBWriter.start: iterating the gevent queue pops one item
per step (up to the budget), enriching each popped item; an enrichment error
propagates out of the loop with the already popped items gone from the queue. The
empty queue case with budget left is not reached by a pass, whose guard ensures at
least MIN (equal to MAX) items; on a live queue the iteration would block there. -/
def drainQueue (enrich : SubstrateAddressBlockExtrinsicsData → Except String (List SubstrateExtrinsic)) :
    List SubstrateAddressBlockExtrinsicsData → Nat →
    List SubstrateAddressBlockExtrinsicsData × Except String (List SubstrateExtrinsic)
  | q, 0 => (q, .ok [])
  | [], _ + 1 => ([], .ok [])
  | a :: rest, n + 1 =>
    match enrich a with
    | .error e => (rest, .error e)
    | .ok xs =>
      match drainQueue enrich rest n with
      | (q2, .error e) => (q2, .error e)
      | (q2, .ok ys) => (q2, .ok (xs ++ ys))

/-- One pass of DBWriter.start: when the queue holds fewer than
MIN_NUMBER_QUEUE_ITEMS_BEFORE_PROCESS items the writer sleeps; otherwise it pops
up to MAX_NUMBER_QUEUE_ITEMS_TO_PROCESS items, enriching each, and commits the
flattened batch (the DB call is skipped for an empty batch, which appending an
empty list models). An enrichment failure surfaces with the popped items lost. -/
def dbwriterPass (enrich : SubstrateAddressBlockExtrinsicsData → Except String (List SubstrateExtrinsic))
    (queue : List SubstrateAddressBlockExtrinsicsData) (db : List SubstrateExtrinsic) :
    PassResult :=
  if queue.length < MIN_NUMBER_QUEUE_ITEMS_BEFORE_PROCESS then .slept queue db
  else
    match drainQueue enrich queue MAX_NUMBER_QUEUE_ITEMS_TO_PROCESS with
    | (q2, .error e) => .failed q2 db e
    | (q2, .ok xs) => .committed q2 (db ++ xs)

/-- Association list lookup with Python dict semantics for the maps of the
Manager; all insertions in the model use fresh keys, so first match equals the
dict lookup. -/
def lookupA {α β : Type} [DecidableEq α] : List (α × β) → α → Option β
  | [], _ => none
  | p :: rest, k => if p.1 = k then some p.2 else lookupA rest k

/-- Registered Indexer instance as the Manager sees it: its id, owning session and
chain (enough to rebuild its task name). -/
structure IndexerInst where
  instance_id : Nat
  sid : String
  chain : SubstrateChain
deriving DecidableEq, Repr

/-- Task name of an Indexer, from Indexer.__init__. -/
def IndexerInst.name (x : IndexerInst) : String :=
  "indexer_" ++ toString x.instance_id ++ "_" ++ x.chain.chainId

/-- Registered DBWriter instance as the Manager sees it. -/
structure DBWriterInst where
  instance_id : Nat
  sid : String
  chain : SubstrateChain
  url : String
deriving DecidableEq, Repr

/-- Task name of a DBWriter, from DBWriter.__init__. -/
def DBWriterInst.name (x : DBWriterInst) : String :=
  "dbwriter_" ++ toString x.instance_id ++ "_" ++ x.chain.chainId

/-- State of substrate_indexer.manager.Manager: the id counters, the id and chain
maps, and the task names of the greenlets currently tracked by the two greenlet
managers (a name in the list is a running, registered task). -/
structure ManagerState where
  indexer_id_counter : Nat
  dbwriter_id_counter : Nat
  indexer_id_to_indexer : List (Nat × IndexerInst)
  dbwriter_id_to_dbwriter : List (Nat × DBWriterInst)
  substrate_chain_to_queue : List (SubstrateChain × Nat)
  substrate_chain_to_dbwriter : List (SubstrateChain × DBWriterInst)
  indexer_greenlets : List String
  dbwriter_greenlets : List String
deriving DecidableEq, Repr

/-- Manager.__init__ starts with empty maps and counters at zero. -/
def managerInit : ManagerState :=
  { indexer_id_counter := 0
    dbwriter_id_counter := 0
    indexer_id_to_indexer := []
    dbwriter_id_to_dbwriter := []
    substrate_chain_to_queue := []
    substrate_chain_to_dbwriter := []
    indexer_greenlets := []
    dbwriter_greenlets := [] }

/-- RemoteError message raised by Manager.create_dbwriter for a chain that already
has a DBWriter. -/
def alreadyHasDBWriterMsg (chain : SubstrateChain) (w : DBWriterInst) : String :=
  "Chain " ++ chain.chainId ++ " already has a DBWriter instance: " ++ w.name

/-- Manager.create_dbwriter: raise RemoteError when the chain already has a
DBWriter (before any mutation); otherwise create the queue and the writer,
register both under the chain, register the writer under its id, spawn and track
its greenlet, and bump the counter. -/
def create_dbwriter (s : ManagerState) (sid : String) (d : EventStartIndexerData) :
    Except String ManagerState :=
  match lookupA s.substrate_chain_to_dbwriter d.substrate_chain with
  | some w => .error (alreadyHasDBWriterMsg d.substrate_chain w)
  | none =>
    let w : DBWriterInst :=
      { instance_id := s.dbwriter_id_counter, sid := sid,
        chain := d.substrate_chain, url := d.url }
    .ok { s with
      substrate_chain_to_queue :=
        s.substrate_chain_to_queue ++ [(d.substrate_chain, s.dbwriter_id_counter)]
      dbwriter_id_to_dbwriter := s.dbwriter_id_to_dbwriter ++ [(w.instance_id, w)]
      substrate_chain_to_dbwriter :=
        s.substrate_chain_to_dbwriter ++ [(d.substrate_chain, w)]
      dbwriter_greenlets := s.dbwriter_greenlets ++ [w.name]
      dbwriter_id_counter := s.dbwriter_id_counter + 1 }

/-- Manager.create_indexer: require a queue and a DBWriter for the chain (a
KeyError becomes a RemoteError), then create and register the indexer, spawn and
track its greenlet, and bump the counter. -/
def create_indexer (s : ManagerState) (sid : String) (d : EventStartIndexingData) :
    Except String ManagerState :=
  match lookupA s.substrate_chain_to_queue d.substrate_chain,
        lookupA s.substrate_chain_to_dbwriter d.substrate_chain with
  | some _, some _ =>
    let ix : IndexerInst :=
      { instance_id := s.indexer_id_counter, sid := sid, chain := d.substrate_chain }
    .ok { s with
      indexer_id_to_indexer := s.indexer_id_to_indexer ++ [(ix.instance_id, ix)]
      indexer_greenlets := s.indexer_greenlets ++ [ix.name]
      indexer_id_counter := s.indexer_id_counter + 1 }
  | _, _ =>
    .error "An instance of Queue and DBWriter are required"

/-- Manager.stop_dbwriters: the kill loop collects the task names of ALL
registered DBWriters (not only those whose instance id was passed) and kills every
tracked greenlet whose task name is among them; then only the passed instance ids
are removed from the id map (their DB handles disconnected). The chain maps are
not touched. -/
def stop_dbwriters (s : ManagerState) (instance_ids : List Nat) : ManagerState :=
  let unique_dbwriter_names := s.dbwriter_id_to_dbwriter.map (fun p => p.2.name)
  { s with
    dbwriter_greenlets :=
      s.dbwriter_greenlets.filter (fun n => !(unique_dbwriter_names.contains n))
    dbwriter_id_to_dbwriter :=
      s.dbwriter_id_to_dbwriter.filter (fun p => !(instance_ids.contains p.1)) }

/-- Manager.stop_indexers: same shape as stop_dbwriters, with the same kill loop
over the names of ALL registered Indexers. -/
def stop_indexers (s : ManagerState) (instance_ids : List Nat) : ManagerState :=
  let unique_indexer_names := s.indexer_id_to_indexer.map (fun p => p.2.name)
  { s with
    indexer_greenlets :=
      s.indexer_greenlets.filter (fun n => !(unique_indexer_names.contains n))
    indexer_id_to_indexer :=
      s.indexer_id_to_indexer.filter (fun p => !(instance_ids.contains p.1)) }

/-- Manager.stop_sid_tasks: collect the instance ids of the DBWriters and Indexers
owned by the session, then stop the indexers first and the dbwriters second. -/
def stop_sid_tasks (s : ManagerState) (sid : String) : ManagerState :=
  let dbwriter_instance_ids :=
    (s.dbwriter_id_to_dbwriter.filter (fun p => p.2.sid = sid)).map (·.1)
  let indexer_instance_ids :=
    (s.indexer_id_to_indexer.filter (fun p => p.2.sid = sid)).map (·.1)
  stop_dbwriters (stop_indexers s indexer_instance_ids) dbwriter_instance_ids

/-- Manager.shutdown: clear both greenlet managers (killing every tracked task)
and disconnect the DB handles; the maps are not modified. -/
def managerShutdown (s : ManagerState) : ManagerState :=
  { s with indexer_greenlets := [], dbwriter_greenlets := [] }

/-- JSON scalar carried by a payload field, enough to distinguish an integer from
a non-integer value for the block number check. -/
inductive JVal where
  | jint (i : Int)
  | jstr (s : String)
deriving DecidableEq, Repr

/-- Failure of a deserialize_from_data call: a raised DeserializationError, which
the event handlers catch, or a raised AssertionError (from
get_substrate_chain_from_chain_id), which they do not. -/
inductive DecodeFailure where
  | deserializationError (msg : String)
  | assertionError (msg : String)
deriving DecidableEq, Repr

/-- Inbound start_indexer JSON payload; a missing field models a missing key. -/
structure StartIndexerPayload where
  chain_id : Option Int
  url : Option String
deriving DecidableEq, Repr

/-- EventStartIndexerData.deserialize_from_data: read chain_id and url (a KeyError
becomes a DeserializationError), then resolve the chain, where an unknown chain id
raises AssertionError. -/
def EventStartIndexerData.deserialize_from_data (p : StartIndexerPayload) :
    Except DecodeFailure EventStartIndexerData :=
  match p.chain_id, p.url with
  | none, _ => .error (.deserializationError "Missing key in data: chain_id")
  | _, none => .error (.deserializationError "Missing key in data: url")
  | some cid, some url =>
    match get_substrate_chain_from_chain_id cid with
    | .error msg => .error (.assertionError msg)
    | .ok chain => .ok { substrate_chain := chain, url := url }

/-- Inbound start_indexing JSON payload. -/
structure StartIndexingPayload where
  chain_id : Option Int
  block_number_start_at : Option JVal
  address : Option String
deriving DecidableEq, Repr

/-- EventStartIndexingData.deserialize_from_data: read the three keys (a KeyError
becomes a DeserializationError), reject a block number that is not an integer
greater than zero, resolve the chain (an unknown chain id raises AssertionError),
validate the address for the chain, then derive the public key in __post_init__
(a ValueError there becomes a DeserializationError). SS58 validation and public
key derivation live in rotkehlchen.chain.substrate.utils, outside src, so they are
the parameters is_valid_substrate_address and derive_public_key. -/
def EventStartIndexingData.deserialize_from_data
    (is_valid_substrate_address : SubstrateChain → String → Bool)
    (derive_public_key : SubstrateChain → String → Option String)
    (p : StartIndexingPayload) : Except DecodeFailure EventStartIndexingData :=
  match p.chain_id, p.block_number_start_at, p.address with
  | none, _, _ => .error (.deserializationError "Missing key in data: chain_id")
  | _, none, _ => .error (.deserializationError "Missing key in data: block_number_start_at")
  | _, _, none => .error (.deserializationError "Missing key in data: address")
  | some cid, some bn, some addr =>
    match bn with
    | .jstr _ =>
      .error (.deserializationError "Invalid block number. Expected integer greater than zero")
    | .jint i =>
      if i ≤ 0 then
        .error (.deserializationError "Invalid block number. Expected integer greater than zero")
      else
        match get_substrate_chain_from_chain_id cid with
        | .error msg => .error (.assertionError msg)
        | .ok chain =>
          if is_valid_substrate_address chain addr = false then
            .error (.deserializationError ("Invalid " ++ chain.chainId ++ " address: " ++ addr))
          else
            match derive_public_key chain addr with
            | none =>
              .error (.deserializationError
                ("Failed to obtain the public key of this " ++ chain.chainId ++
                  " address: " ++ addr))
            | some pk =>
              .ok { substrate_chain := chain, block_number_start_at := i.toNat,
                    address := addr, address_public_key := pk }

/-- start_indexer event handler of substrate_indexer.__main__: a caught
DeserializationError emits one server_error with code start_indexer_0001; a
ModuleInitializationFailure or RemoteError from create_dbwriter emits one
server_error with code start_indexer_0002; success emits one server_success. An
AssertionError escaping deserialize_from_data is caught by neither except clause
and propagates out of the handler (the error branch of the result). -/
def handle_start_indexer (s : ManagerState) (sid : String) (p : StartIndexerPayload) :
    Except String (ManagerState × List EmittedMsg) :=
  match EventStartIndexerData.deserialize_from_data p with
  | .error (.deserializationError msg) => .ok (s, [.serverError "start_indexer_0001" msg])
  | .error (.assertionError msg) => .error msg
  | .ok d =>
    match create_dbwriter s sid d with
    | .error msg => .ok (s, [.serverError "start_indexer_0002" msg])
    | .ok s2 => .ok (s2, [.serverSuccess "start_indexer"])

/-- start_indexing event handler of substrate_indexer.__main__, with codes
start_indexing_0001 and start_indexing_0002; an AssertionError escaping
deserialize_from_data again propagates out of the handler. -/
def handle_start_indexing (s : ManagerState) (sid : String)
    (is_valid_substrate_address : SubstrateChain → String → Bool)
    (derive_public_key : SubstrateChain → String → Option String)
    (p : StartIndexingPayload) :
    Except String (ManagerState × List EmittedMsg) :=
  match EventStartIndexingData.deserialize_from_data
      is_valid_substrate_address derive_public_key p with
  | .error (.deserializationError msg) => .ok (s, [.serverError "start_indexing_0001" msg])
  | .error (.assertionError msg) => .error msg
  | .ok d =>
    match create_indexer s sid d with
    | .error msg => .ok (s, [.serverError "start_indexing_0002" msg])
    | .ok s2 => .ok (s2, [.serverSuccess "start_indexing"])

/-- Manager operation, for quantifying over arbitrary sequences of Manager calls
within one process lifetime. -/
inductive ManagerOp where
  | opCreateDBWriter (sid : String) (d : EventStartIndexerData)
  | opCreateIndexer (sid : String) (d : EventStartIndexingData)
  | opStopDBWriters (ids : List Nat)
  | opStopIndexers (ids : List Nat)
  | opStopSidTasks (sid : String)
  | opShutdown

/-- Apply one Manager operation; a raised error leaves the state unchanged (the
create methods mutate nothing before raising). -/
def applyOp (s : ManagerState) : ManagerOp → ManagerState
  | .opCreateDBWriter sid d =>
    match create_dbwriter s sid d with
    | .ok s2 => s2
    | .error _ => s
  | .opCreateIndexer sid d =>
    match create_indexer s sid d with
    | .ok s2 => s2
    | .error _ => s
  | .opStopDBWriters ids => stop_dbwriters s ids
  | .opStopIndexers ids => stop_indexers s ids
  | .opStopSidTasks sid => stop_sid_tasks s sid
  | .opShutdown => managerShutdown s

/-- Apply a sequence of Manager operations in order. -/
def applyOps (s : ManagerState) (ops : List ManagerOp) : ManagerState :=
  ops.foldl applyOp s

/-
Concrete inputs used to evaluate the embedded code on specific scenarios.
-/

/-- Date parser recognising the single timestamp used in the scenarios. -/
def parseDateK : String → Option Nat := fun s =>
  if s = "2021-01-01T00:00:00" then some 1609459200 else none

/-- Indexing request targeting public key 0xBB. -/
def dIndexK : EventStartIndexingData :=
  { substrate_chain := .KUSAMA
    block_number_start_at := 5
    address := "ADDR1"
    address_public_key := "0xBB" }

/-- Timestamp inherent of the scenario block: no hash, no transaction, a parsable
timestamp value. -/
def inhK : Extrinsic :=
  { extrinsic_hash := none
    contains_transaction := false
    account_id := ""
    inherent_value := some "2021-01-01T00:00:00"
    call_module := "Timestamp"
    call_function := "set"
    params := "[]"
    nonce := 0 }

/-- Signed extrinsic of the scenario block, signed by account aa, which is not the
indexer target key 0xBB. -/
def txForeignK : Extrinsic :=
  { extrinsic_hash := some "0xhash1"
    contains_transaction := true
    account_id := "aa"
    inherent_value := none
    call_module := "Balances"
    call_function := "transfer"
    params := "[]"
    nonce := 3 }

/-- Block environment where every block holds the inherent plus the foreign
signed extrinsic and every fetch attempt succeeds. -/
def envForeignK : Nat → BlockEnv := fun _ =>
  { attempts := fun _ => .ok [inhK, txForeignK], block_hash := "0xBH" }

/-- Timestamp inherent whose value is absent (the params lookup raises KeyError),
in a block with no transaction extrinsics. -/
def inhBadK : Extrinsic :=
  { extrinsic_hash := none
    contains_transaction := false
    account_id := ""
    inherent_value := none
    call_module := "Timestamp"
    call_function := "set"
    params := "[]"
    nonce := 0 }

/-- Block environment where every block holds only the malformed inherent. -/
def envBadInherentK : Nat → BlockEnv := fun _ =>
  { attempts := fun _ => .ok [inhBadK], block_hash := "0xBH" }

/-- Block environment where every block holds the malformed inherent together
with a kept signed extrinsic, so the timestamp parse is reached and fails. -/
def envBadTsK : Nat → BlockEnv := fun _ =>
  { attempts := fun _ => .ok [inhBadK, txForeignK], block_hash := "0xBH" }

/-- Queue item number i for the db writer scenarios: block i with no extrinsics
payload needed (enrichment is driven by the enrich function). -/
def mkQueueItemK (i : Nat) : SubstrateAddressBlockExtrinsicsData :=
  { address := "ADDR1"
    address_public_key := "0xBB"
    block_number := i
    block_hash := "0xBH"
    block_timestamp := 1609459200
    extrinsics := [] }

/-- Ten distinct queued items, blocks 0 through 9. -/
def queueTenK : List SubstrateAddressBlockExtrinsicsData :=
  (List.range 10).map mkQueueItemK

/-- Enrichment that fails fatally on every item, as a receipt lookup RemoteError
does. -/
def enrichFailK : SubstrateAddressBlockExtrinsicsData → Except String (List SubstrateExtrinsic) :=
  fun _ => .error "remote error"

/-- Receipt lookup attempts whose first attempt raises a transient timeout and
whose retry would succeed. -/
def attemptsTransientK : Nat → ReceiptAttempt := fun i =>
  if i = 0 then .error "read timeout" else .ok { extrinsic_index := 1, total_fee_amount := some 100 }

/-- Node interface data of the happy path scenario: Kusama with 12 decimals. -/
def nodeK : NodeInterfaceData := { chain := "Kusama", token_decimals := 12 }

/-- Receipt lookup succeeding immediately with fee minor units 10000000000. -/
def receiptsFeeK : Extrinsic → Nat → ReceiptAttempt := fun _ _ =>
  .ok { extrinsic_index := 1, total_fee_amount := some 10000000000 }

/-- Queue item holding the foreign signed extrinsic, as the indexer of the happy
path scenario would enqueue it. -/
def abedFeeK : SubstrateAddressBlockExtrinsicsData :=
  { address := "ADDR1"
    address_public_key := "0xBB"
    block_number := 5662971
    block_hash := "0xBH"
    block_timestamp := 1609459200
    extrinsics := [txForeignK] }

/-- Expected persisted row of the fee scenario. -/
def rowFeeK : SubstrateExtrinsic :=
  { chain_id := "Kusama"
    block_number := 5662971
    block_hash := "0xBH"
    block_timestamp := 1609459200
    extrinsic_index := 1
    extrinsic_hash := "0xhash1"
    call_module := "Balances"
    call_module_function := "transfer"
    params := "[]"
    account_id := "0xBB"
    address := "ADDR1"
    nonce := 3
    fee := convertFee 10000000000 12 }

/-- start_indexer payload for Kusama. -/
def pIndexerK : StartIndexerPayload := { chain_id := some 1, url := some "wss://node" }

/-- EventStartIndexerData for Kusama used by the manager scenarios. -/
def dWriterK : EventStartIndexerData := { substrate_chain := .KUSAMA, url := "wss://node" }

/-- Indexing request of session B, same chain and target as session A uses. -/
def dIndexK2 : EventStartIndexingData :=
  { substrate_chain := .KUSAMA
    block_number_start_at := 7
    address := "ADDR2"
    address_public_key := "0xCC" }

/-- Manager state where session B owns the Kusama writer and one indexer while
session A owns only an indexer on the same chain: B creates the writer, then A
creates indexer 0, then B creates indexer 1. -/
def sWriterOwnedByBK : ManagerState :=
  ((((create_dbwriter managerInit "sidB" dWriterK).bind fun s =>
      create_indexer s "sidA" dIndexK).bind fun s =>
      create_indexer s "sidB" dIndexK2).toOption).getD managerInit

/-- Manager state after the first successful start_indexer call of session A. -/
def sOneWriterK : ManagerState :=
  (((handle_start_indexer managerInit "sidA" pIndexerK).toOption).getD (managerInit, [])).1

/-- The writer registered by sOneWriterK. -/
def wK : DBWriterInst :=
  { instance_id := 0, sid := "sidA", chain := .KUSAMA, url := "wss://node" }

/-- Data decoded from pIndexerK. -/
def dDecodedK : EventStartIndexerData := { substrate_chain := .KUSAMA, url := "wss://node" }

/-- Address validity predicate accepting every address. -/
def validAllK : SubstrateChain → String → Bool := fun _ _ => true

/-- Address validity predicate rejecting every address. -/
def validNoneK : SubstrateChain → String → Bool := fun _ _ => false

/-- Public key derivation returning a fixed key. -/
def derivePkK : SubstrateChain → String → Option String := fun _ _ => some "0xBB"

/-- start_indexing payload with an unrecognized chain id 2 and otherwise valid
fields. -/
def pUnknownChainK : StartIndexingPayload :=
  { chain_id := some 2, block_number_start_at := some (.jint 5), address := some "ADDR1" }

/-- start_indexing payload for Kusama with a syntactically valid shape. -/
def pIndexingK : StartIndexingPayload :=
  { chain_id := some 1, block_number_start_at := some (.jint 5), address := some "ADDR1" }

/-- Manager state right after creating the Kusama writer from the initial state. -/
def sAfterCreateK : ManagerState :=
  ((create_dbwriter managerInit "sidA" dWriterK).toOption).getD managerInit

/-
Theorems.
-/

/-- An item produced for a block carries that block number. -/
theorem get_abed_block_number {parseDate : String → Option Nat}
    {d : EventStartIndexingData} {env : BlockEnv} {n : Nat}
    {item : SubstrateAddressBlockExtrinsicsData}
    (h : get_address_block_extrinsics_data parseDate d env n = .ok (some item)) :
    item.block_number = n := by
  unfold get_address_block_extrinsics_data at h
  split at h
  · exact Except.noConfusion h
  · split at h
    · simp at h
    · split at h
      · simp at h
      · split at h
        · exact Except.noConfusion h
        · simp only [Except.ok.injEq, Option.some.injEq] at h
          subst h
          rfl

/-- Every item the indexer loop enqueues starting at cursor n is for a block at
or beyond n. -/
theorem indexerRun_block_number_lb (parseDate : String → Option Nat)
    (d : EventStartIndexingData) (env : Nat → BlockEnv) :
    ∀ fuel n item, item ∈ (indexerRun parseDate d env fuel n).1 →
      n ≤ item.block_number := by
  intro fuel
  induction fuel with
  | zero =>
    intro n item h
    simp [indexerRun] at h
  | succ k ih =>
    intro n item h
    unfold indexerRun at h
    split at h
    · simp at h
    · simp at h
    · exact Nat.le_of_succ_le (ih (n + 1) item h)
    · rename_i it heq
      simp only [List.mem_cons] at h
      rcases h with h | h
      · subst h
        exact Nat.le_of_eq (get_abed_block_number heq).symm
      · exact Nat.le_of_succ_le (ih (n + 1) item h)

/-- The items the indexer loop enqueues have strictly increasing block numbers. -/
theorem indexerRun_pairwise (parseDate : String → Option Nat)
    (d : EventStartIndexingData) (env : Nat → BlockEnv) :
    ∀ fuel n, ((indexerRun parseDate d env fuel n).1).Pairwise
      (fun a b => a.block_number < b.block_number) := by
  intro fuel
  induction fuel with
  | zero =>
    intro n
    simp [indexerRun]
  | succ k ih =>
    intro n
    unfold indexerRun
    split
    · simp
    · simp
    · exact ih (n + 1)
    · rename_i it heq
      dsimp only
      refine List.Pairwise.cons ?_ (ih (n + 1))
      intro b hb
      have hbn : n + 1 ≤ b.block_number :=
        indexerRun_block_number_lb parseDate d env k (n + 1) b hb
      have hit : it.block_number = n := get_abed_block_number heq
      omega

/-- C7: for any Indexer instance (any date parser, request data, per-block
environment and number of loop iterations), the sequence of block numbers of the
AddressBlockExtrinsics items put on the queue, in queue order, is strictly
increasing; in particular at most one item is enqueued per block number and an
item for a later block is never enqueued before one for an earlier block. -/
theorem c7_enqueued_blocks_strictly_increasing (parseDate : String → Option Nat)
    (d : EventStartIndexingData) (env : Nat → BlockEnv) (fuel : Nat) :
    ((indexerStart parseDate d env fuel).1.map
      (fun item => item.block_number)).Pairwise (· < ·) := by
  unfold indexerStart
  exact List.pairwise_map.mpr (indexerRun_pairwise parseDate d env fuel d.block_number_start_at)

/-- C1: the claim fails on the code. The signer comparison of the filter is
commented out in Indexer._get_address_block_extrinsics_data (a restore TODO), so
the indexer enqueues extrinsics regardless of signer. Evaluating the embedded
loop on a block holding one signed, hashed extrinsic from account aa while the
indexer targets key 0xBB: the item is enqueued and carries the foreign
extrinsic, which satisfies the hash and contains_transaction conditions but not
the signer condition. -/
theorem c1_filter_enqueues_foreign_signer :
    (indexerStart parseDateK dIndexK envForeignK 1).1 =
      [{ address := "ADDR1", address_public_key := "0xBB", block_number := 5,
         block_hash := "0xBH", block_timestamp := 1609459200,
         extrinsics := [txForeignK] }] ∧
    txForeignK.contains_transaction = true ∧
    txForeignK.extrinsic_hash.isSome = true ∧
    txForeignK.account_id ≠ dIndexK.address_public_key := by
  refine ⟨by decide, rfl, rfl, by decide⟩

/-- C8 (amended): when the fetched block has a nonempty filtered extrinsic list
and the timestamp of its first extrinsic is absent or unparseable, the main loop
fails for that block: it emits exactly one server_error to the owning session
and exits, enqueueing nothing, regardless of remaining fuel. Blocks whose
filtered list is empty never reach the timestamp parse (see the counterexample
for the silent advance the original claim rules out). -/
theorem c8_amended_timestamp_failure_stops_loop (parseDate : String → Option Nat)
    (d : EventStartIndexingData) (env : Nat → BlockEnv) (fuel n : Nat)
    (bi : Extrinsic) (bx : List Extrinsic) (msg : String)
    (hfetch : requestBlockExtrinsics (env n).attempts 0 REQUEST_BLOCK_RETRY_TIMES =
      .ok (bi :: bx))
    (hkept : (addressBlockExtrinsicsFilter (bi :: bx)).isEmpty = false)
    (hts : deserialize_inherent_timestamp parseDate bi.inherent_value = .error msg) :
    indexerRun parseDate d env (fuel + 1) n =
      ([], [.serverError indexerE0001 msg]) := by
  have hg : get_address_block_extrinsics_data parseDate d (env n) n =
      .error (.deserializationError msg) := by
    unfold get_address_block_extrinsics_data
    rw [hfetch]
    simp [hkept, hts]
  unfold indexerRun
  rw [hg]

/-- C8 witness for the amended theorem: a block whose first extrinsic lacks the
timestamp value but which keeps one signed extrinsic makes the loop emit the
error and stop. -/
theorem c8_amended_witness :
    indexerRun parseDateK dIndexK envBadTsK 1 5 =
      ([], [.serverError indexerE0001 "Missing key in value"]) :=
  c8_amended_timestamp_failure_stops_loop parseDateK dIndexK envBadTsK 0 5
    inhBadK [txForeignK] "Missing key in value" rfl rfl rfl

/-- C8 counterexample: the claim as stated fails on the code. A block whose
timestamp inherent value is absent, but whose filtered extrinsic list is empty,
is skipped silently: over three iterations starting at the cursor the loop
enqueues nothing and emits no server_error, advancing past every such block
instead of failing. -/
theorem c8_counterexample_silent_advance :
    indexerStart parseDateK dIndexK envBadInherentK 3 = ([], []) := by
  decide

/-- C5: the claim fails on the code. In the receipt lookup loop of
DBWriter._deserialize_substrate_extrinsics the except branch decrements
retries_left but no continue follows, so the loop raises RemoteError on the
first transient failure. At attempts whose first lookup fails transiently and
whose retry would succeed, requestReceiptData (the code) surfaces the error
while requestReceiptDataRetrying (the retry policy the spec states) returns the
receipt. -/
theorem c5_receipt_retry_never_retries :
    requestReceiptData attemptsTransientK = .error "failed to request extrinsic data" ∧
    requestReceiptDataRetrying attemptsTransientK 0 REQUEST_RECEIPT_DATA_TIMES =
      .ok { extrinsic_index := 1, total_fee_amount := some 100 } :=
  ⟨rfl, rfl⟩

/-- A failed drain leaves the queue equal to the original with its first k items
removed, for some positive k within the budget: the popped items, including the
failing one, are gone and nothing is re-queued. -/
theorem drainQueue_failed_drop
    (enrich : SubstrateAddressBlockExtrinsicsData → Except String (List SubstrateExtrinsic)) :
    ∀ budget q q2 msg, drainQueue enrich q budget = (q2, .error msg) →
      ∃ k, 0 < k ∧ k ≤ budget ∧ q2 = q.drop k := by
  intro budget
  induction budget with
  | zero =>
    intro q q2 msg h
    simp [drainQueue] at h
  | succ b ih =>
    intro q q2 msg h
    match q with
    | [] => simp [drainQueue] at h
    | a :: rest =>
      unfold drainQueue at h
      cases he : enrich a with
      | error e =>
        rw [he] at h
        simp only [Prod.mk.injEq, Except.error.injEq] at h
        exact ⟨1, Nat.one_pos, Nat.succ_le_succ (Nat.zero_le b), by simp [h.1]⟩
      | ok xs =>
        rw [he] at h
        cases hd : drainQueue enrich rest b with
        | mk q3 r =>
          rw [hd] at h
          cases r with
          | error e2 =>
            simp only [Prod.mk.injEq, Except.error.injEq] at h
            obtain ⟨k, hk0, hkb, hq⟩ := ih rest q3 e2 hd
            exact ⟨k + 1, Nat.succ_pos k, Nat.succ_le_succ hkb, by simp [← h.1, hq]⟩
          | ok ys => simp at h

/-- C3 (amended): the claim fails on the code: there is no re-queueing. Items
are removed from the queue as they are dequeued, and when enrichment of a batch
fails the pass surfaces the error with the DB unchanged and the queue equal to
the original minus its first k dequeued items, for some positive k: those items
are lost, not re-queued at the head. -/
theorem c3_amended_failed_pass_loses_items
    (enrich : SubstrateAddressBlockExtrinsicsData → Except String (List SubstrateExtrinsic))
    (q q2 : List SubstrateAddressBlockExtrinsicsData)
    (db db2 : List SubstrateExtrinsic) (msg : String)
    (h : dbwriterPass enrich q db = .failed q2 db2 msg) :
    db2 = db ∧ ∃ k, 0 < k ∧ k ≤ MAX_NUMBER_QUEUE_ITEMS_TO_PROCESS ∧ q2 = q.drop k := by
  unfold dbwriterPass at h
  split at h
  · exact PassResult.noConfusion h
  · cases hd : drainQueue enrich q MAX_NUMBER_QUEUE_ITEMS_TO_PROCESS with
    | mk q3 r =>
      rw [hd] at h
      cases r with
      | error e =>
        simp only [PassResult.failed.injEq] at h
        obtain ⟨hq, hdb, hmsg⟩ := h
        subst hq; subst hdb; subst hmsg
        exact ⟨rfl, drainQueue_failed_drop enrich MAX_NUMBER_QUEUE_ITEMS_TO_PROCESS q q3 e hd⟩
      | ok xs => exact PassResult.noConfusion h

/-- C3 witness for the amended theorem, at a ten item queue whose first
enrichment fails. -/
theorem c3_amended_witness :
    ([] : List SubstrateExtrinsic) = [] ∧
    ∃ k, 0 < k ∧ k ≤ MAX_NUMBER_QUEUE_ITEMS_TO_PROCESS ∧
      queueTenK.drop 1 = queueTenK.drop k :=
  c3_amended_failed_pass_loses_items enrichFailK queueTenK (queueTenK.drop 1) []
    [] "remote error" rfl

/-- C3 counterexample: the claim as stated fails on the code. With ten items
queued and an enrichment that fails fatally on the first item, the pass
surfaces the error with the first item removed from the queue: it is not
re-queued at the head, so a queued item is lost on the failed pass. -/
theorem c3_counterexample_item_lost :
    dbwriterPass enrichFailK queueTenK [] =
      .failed (queueTenK.drop 1) [] "remote error" ∧
    queueTenK.drop 1 ≠ queueTenK ∧
    mkQueueItemK 0 ∈ queueTenK ∧ mkQueueItemK 0 ∉ queueTenK.drop 1 := by
  refine ⟨by decide, by decide, by decide, by decide⟩

/-- C6: the fee the DBWriter computes for a persisted extrinsic equals the raw
fee in minor units divided by 10 to the token decimals, exactly: multiplying the
persisted fee back by 10 to the decimals recovers the raw integer fee, with no
rounding. Stated for any receipt lookup that returns fee minor units fm. -/
theorem c6_fee_conversion_exact (node : NodeInterfaceData)
    (receipts : Extrinsic → Nat → ReceiptAttempt)
    (abed : SubstrateAddressBlockExtrinsicsData) (e : Extrinsic)
    (r : ReceiptData) (fm : Nat) (x : SubstrateExtrinsic)
    (hr : requestReceiptData (receipts e) = .ok r)
    (hfee : r.total_fee_amount = some fm)
    (hx : deserializeOneExtrinsic node receipts abed e = .ok x) :
    x.fee = (fm : ℚ) / 10 ^ node.token_decimals ∧
    x.fee * 10 ^ node.token_decimals = (fm : ℚ) := by
  have hfx : x.fee = convertFee fm node.token_decimals := by
    unfold deserializeOneExtrinsic at hx
    rw [hr] at hx
    dsimp only at hx
    rw [hfee] at hx
    simp only [Except.ok.injEq] at hx
    subst hx
    rfl
  have hpow : ((10 : ℚ) ^ node.token_decimals) ≠ 0 := pow_ne_zero _ (by norm_num)
  constructor
  · rw [hfx]; rfl
  · rw [hfx]
    unfold convertFee
    exact div_mul_cancel₀ _ hpow

/-- C6 witness: fee minor units 10000000000 with 12 decimals persist exactly one
hundredth, the literal value of the happy path scenario. -/
theorem c6_witness :
    deserializeOneExtrinsic nodeK receiptsFeeK abedFeeK txForeignK = .ok rowFeeK ∧
    rowFeeK.fee = (10000000000 : ℚ) / 10 ^ 12 ∧
    rowFeeK.fee * 10 ^ 12 = (10000000000 : ℚ) ∧
    rowFeeK.fee = 1 / 100 := by
  have h := c6_fee_conversion_exact nodeK receiptsFeeK abedFeeK txForeignK
    { extrinsic_index := 1, total_fee_amount := some 10000000000 } 10000000000 rowFeeK
    rfl rfl rfl
  exact ⟨rfl, h.1, h.2, by norm_num [rowFeeK, convertFee]⟩

/-- C2: the claim fails on the code, outside the shared-writer carve-out. Here
session B owns the Kusama writer (and indexer 1) while session A owns only
indexer 0, so stopping A is not the case where A owned the shared writer.
Before the stop, the writer greenlet and both indexer greenlets run, the writer
registration belongs to sidB, and the dbwriter id list collected for sidA is
empty. stop_sid_tasks for sidA nevertheless kills the writer greenlet of B and
the indexer greenlet of B, because the kill loops of stop_indexers and
stop_dbwriters match task names against all registered instances instead of the
passed instance ids; the registrations of B survive with their tasks dead. -/
theorem c2_stop_sid_kills_unowned_writer :
    sWriterOwnedByBK.dbwriter_greenlets = ["dbwriter_0_Kusama"] ∧
    (lookupA sWriterOwnedByBK.dbwriter_id_to_dbwriter 0).map (fun w => w.sid) =
      some "sidB" ∧
    (sWriterOwnedByBK.dbwriter_id_to_dbwriter.filter
      (fun p => p.2.sid = "sidA")).map (fun p => p.1) = [] ∧
    sWriterOwnedByBK.indexer_greenlets = ["indexer_0_Kusama", "indexer_1_Kusama"] ∧
    (lookupA sWriterOwnedByBK.indexer_id_to_indexer 1).map (fun ix => ix.sid) =
      some "sidB" ∧
    (stop_sid_tasks sWriterOwnedByBK "sidA").dbwriter_greenlets = [] ∧
    (stop_sid_tasks sWriterOwnedByBK "sidA").indexer_greenlets = [] ∧
    (lookupA (stop_sid_tasks sWriterOwnedByBK "sidA").dbwriter_id_to_dbwriter 0).map
      (fun w => w.sid) = some "sidB" ∧
    (lookupA (stop_sid_tasks sWriterOwnedByBK "sidA").indexer_id_to_indexer 1).map
      (fun ix => ix.sid) = some "sidB" := by
  refine ⟨by decide, by decide, by decide, by decide, by decide, by decide,
    by decide, by decide, by decide⟩

/-- C4: when a DBWriter is already registered for the chain of a decoded
start_indexer payload, create_dbwriter raises the typed already-running
RemoteError without touching the state, and the start_indexer handler replies
with exactly one server_error carrying code start_indexer_0002 while the state,
hence the registered writer, is unchanged. -/
theorem c4_one_writer_per_chain (s : ManagerState) (sid : String)
    (p : StartIndexerPayload) (d : EventStartIndexerData) (w : DBWriterInst)
    (hd : EventStartIndexerData.deserialize_from_data p = .ok d)
    (hw : lookupA s.substrate_chain_to_dbwriter d.substrate_chain = some w) :
    create_dbwriter s sid d = .error (alreadyHasDBWriterMsg d.substrate_chain w) ∧
    handle_start_indexer s sid p =
      .ok (s, [.serverError "start_indexer_0002" (alreadyHasDBWriterMsg d.substrate_chain w)]) ∧
    lookupA s.substrate_chain_to_dbwriter d.substrate_chain = some w := by
  have hc : create_dbwriter s sid d = .error (alreadyHasDBWriterMsg d.substrate_chain w) := by
    unfold create_dbwriter
    rw [hw]
  refine ⟨hc, ?_, hw⟩
  unfold handle_start_indexer
  rw [hd]
  dsimp only
  rw [hc]

/-- C4 witness: two back to back start_indexer calls for Kusama from two
sessions yield one writer, one success reply and one start_indexer_0002 error
reply, with the state unchanged by the second call. -/
theorem c4_one_writer_per_chain_witness :
    handle_start_indexer managerInit "sidA" pIndexerK =
      .ok (sOneWriterK, [.serverSuccess "start_indexer"]) ∧
    (create_dbwriter sOneWriterK "sidB" dDecodedK =
        .error (alreadyHasDBWriterMsg dDecodedK.substrate_chain wK) ∧
      handle_start_indexer sOneWriterK "sidB" pIndexerK =
        .ok (sOneWriterK, [.serverError "start_indexer_0002"
          (alreadyHasDBWriterMsg dDecodedK.substrate_chain wK)]) ∧
      lookupA sOneWriterK.substrate_chain_to_dbwriter dDecodedK.substrate_chain =
        some wK) :=
  ⟨rfl, c4_one_writer_per_chain sOneWriterK "sidB" pIndexerK dDecodedK wK
    rfl (by decide)⟩

/-- C9 (amended): every start_indexing payload whose deserialization raises a
DeserializationError (missing key, block number not an integer greater than
zero, invalid address, failed public key derivation) makes the adapter reply to
the originating session with exactly one server_error carrying code
start_indexing_0001 and the detail string, with the manager state unchanged, so
no Indexer is created. An unrecognized chain id is different: it raises an
AssertionError that the handler does not catch (see the counterexample). -/
theorem c9_amended_deser_error_replies_0001 (s : ManagerState) (sid : String)
    (va : SubstrateChain → String → Bool)
    (dp : SubstrateChain → String → Option String)
    (p : StartIndexingPayload) (msg : String)
    (hd : EventStartIndexingData.deserialize_from_data va dp p =
      .error (.deserializationError msg)) :
    handle_start_indexing s sid va dp p =
      .ok (s, [.serverError "start_indexing_0001" msg]) := by
  unfold handle_start_indexing
  rw [hd]

/-- C9 witness for the amended theorem: an address failing SS58 validation
replies start_indexing_0001 and creates no indexer. -/
theorem c9_amended_witness :
    handle_start_indexing managerInit "sidA" validNoneK derivePkK pIndexingK =
      .ok (managerInit, [.serverError "start_indexing_0001"
        "Invalid Kusama address: ADDR1"]) :=
  c9_amended_deser_error_replies_0001 managerInit "sidA" validNoneK derivePkK
    pIndexingK "Invalid Kusama address: ADDR1" rfl

/-- C9 counterexample: the claim as stated fails on the code for an unrecognized
chain id: deserialization raises AssertionError, which the handler catches with
neither except clause, so no server_error with code start_indexing_0001 is
emitted and the exception escapes the handler (reaching the unhandled error
handler, which shuts the service down). -/
theorem c9_counterexample_unknown_chain_escapes :
    handle_start_indexing managerInit "sidA" validAllK derivePkK pUnknownChainK =
      .error "Unexpected chain ID" :=
  rfl

/-- Lookup in an association list ignores a right extension when the key is
already bound on the left. -/
theorem lookupA_append_left {α β : Type} [DecidableEq α] (l₁ l₂ : List (α × β))
    (k : α) (v : β) (h : lookupA l₁ k = some v) : lookupA (l₁ ++ l₂) k = some v := by
  induction l₁ with
  | nil => simp [lookupA] at h
  | cons p rest ih =>
    rw [List.cons_append]
    simp only [lookupA] at h ⊢
    by_cases hk : p.1 = k
    · rw [if_pos hk] at h ⊢
      exact h
    · rw [if_neg hk] at h ⊢
      exact ih h

/-- Lookup in an association list falls through a left part that does not bind
the key. -/
theorem lookupA_append_none {α β : Type} [DecidableEq α] (l₁ l₂ : List (α × β))
    (k : α) (h : lookupA l₁ k = none) : lookupA (l₁ ++ l₂) k = lookupA l₂ k := by
  induction l₁ with
  | nil => rfl
  | cons p rest ih =>
    rw [List.cons_append]
    simp only [lookupA] at h ⊢
    by_cases hk : p.1 = k
    · rw [if_pos hk] at h
      exact Option.noConfusion h
    · rw [if_neg hk] at h ⊢
      exact ih h

/-- Appending a fresh binding to an association list makes it found. -/
theorem lookupA_append_singleton {α β : Type} [DecidableEq α] (l : List (α × β))
    (k : α) (v : β) (h : lookupA l k = none) : lookupA (l ++ [(k, v)]) k = some v := by
  rw [lookupA_append_none l [(k, v)] k h]
  simp [lookupA]

/-- No Manager operation removes a chain from substrate_chain_to_dbwriter: the
stop methods pop only the id map and kill greenlets, shutdown clears greenlets,
and the create methods either refuse or append a chain that was absent. -/
theorem applyOp_preserves_chain_writer (s : ManagerState) (op : ManagerOp)
    (chain : SubstrateChain) (w : DBWriterInst)
    (hw : lookupA s.substrate_chain_to_dbwriter chain = some w) :
    lookupA (applyOp s op).substrate_chain_to_dbwriter chain = some w := by
  cases op with
  | opCreateDBWriter sid d =>
    simp only [applyOp]
    cases hc : create_dbwriter s sid d with
    | error e => exact hw
    | ok s2 =>
      unfold create_dbwriter at hc
      cases hl : lookupA s.substrate_chain_to_dbwriter d.substrate_chain with
      | some w2 =>
        rw [hl] at hc
        exact Except.noConfusion hc
      | none =>
        rw [hl] at hc
        dsimp only at hc
        injection hc with h2
        subst h2
        exact lookupA_append_left _ _ _ _ hw
  | opCreateIndexer sid d =>
    simp only [applyOp]
    cases hc : create_indexer s sid d with
    | error e => exact hw
    | ok s2 =>
      unfold create_indexer at hc
      split at hc
      · injection hc with h2
        subst h2
        exact hw
      · exact Except.noConfusion hc
  | opStopDBWriters ids => exact hw
  | opStopIndexers ids => exact hw
  | opStopSidTasks sid => exact hw
  | opShutdown => exact hw

/-- Preservation of a registered chain writer across any operation sequence. -/
theorem applyOps_preserves_chain_writer (ops : List ManagerOp) :
    ∀ s chain w, lookupA s.substrate_chain_to_dbwriter chain = some w →
      lookupA (applyOps s ops).substrate_chain_to_dbwriter chain = some w := by
  induction ops with
  | nil =>
    intro s chain w hw
    exact hw
  | cons op rest ih =>
    intro s chain w hw
    exact ih (applyOp s op) chain w (applyOp_preserves_chain_writer s op chain w hw)

/-- A successful create_dbwriter registers the new writer under its chain. -/
theorem create_dbwriter_ok_lookup (s : ManagerState) (sid : String)
    (d : EventStartIndexerData) (s2 : ManagerState)
    (h : create_dbwriter s sid d = .ok s2) :
    lookupA s2.substrate_chain_to_dbwriter d.substrate_chain =
      some { instance_id := s.dbwriter_id_counter, sid := sid,
             chain := d.substrate_chain, url := d.url } := by
  unfold create_dbwriter at h
  cases hl : lookupA s.substrate_chain_to_dbwriter d.substrate_chain with
  | some w2 =>
    rw [hl] at h
    exact Except.noConfusion h
  | none =>
    rw [hl] at h
    dsimp only at h
    injection h with h2
    subst h2
    exact lookupA_append_singleton _ _ _ hl

/-- C10: once create_dbwriter has succeeded for a chain, after any sequence of
further Manager operations (creates, stop_dbwriters, stop_indexers,
stop_sid_tasks, shutdown) the chain still has a registered writer in
substrate_chain_to_dbwriter, and a later create_dbwriter for that chain raises
the already-has-a-DBWriter RemoteError: a writer for a chain can never be
recreated within one process lifetime. -/
theorem c10_writer_never_recreatable (s : ManagerState) (sid : String)
    (d : EventStartIndexerData) (s2 : ManagerState) (ops : List ManagerOp)
    (sid2 : String) (d2 : EventStartIndexerData)
    (hchain : d2.substrate_chain = d.substrate_chain)
    (h : create_dbwriter s sid d = .ok s2) :
    ∃ w, lookupA (applyOps s2 ops).substrate_chain_to_dbwriter d2.substrate_chain =
        some w ∧
      create_dbwriter (applyOps s2 ops) sid2 d2 =
        .error (alreadyHasDBWriterMsg d2.substrate_chain w) := by
  have h0 := create_dbwriter_ok_lookup s sid d s2 h
  have hpres := applyOps_preserves_chain_writer ops s2 d.substrate_chain _ h0
  refine ⟨{ instance_id := s.dbwriter_id_counter, sid := sid,
            chain := d.substrate_chain, url := d.url }, ?_, ?_⟩
  · rw [hchain]
    exact hpres
  · unfold create_dbwriter
    rw [hchain, hpres]

/-- C10 witness: create the Kusama writer, stop every task of its session, then
attempt to create a writer for Kusama again: the chain is still registered and
the second create raises. -/
theorem c10_witness :
    ∃ w, lookupA (applyOps sAfterCreateK
        [ManagerOp.opStopSidTasks "sidA"]).substrate_chain_to_dbwriter
        dWriterK.substrate_chain = some w ∧
      create_dbwriter (applyOps sAfterCreateK [ManagerOp.opStopSidTasks "sidA"])
          "sidB" dWriterK =
        .error (alreadyHasDBWriterMsg dWriterK.substrate_chain w) :=
  c10_writer_never_recreatable managerInit "sidA" dWriterK sAfterCreateK
    [ManagerOp.opStopSidTasks "sidA"] "sidB" dWriterK rfl rfl

end SubstrateIndexer
